import Mathlib

/-! # MTG Claude Proxy (`server.js`): a shallow embedding

`server.js` is an Express application with a CORS origin callback, a status
route `GET /` and a forwarding route `POST /api/claude`.  The handlers are
embedded as pure functions of everything they read (the process environment,
the request body, the clock, the outcome of `fetch`) returning everything
they do (the response written through `res`, the outbound calls, the console
lines).

Platform pieces that are not part of `server.js` are modelled as follows.
* `JSON.stringify` is a field of `World` (number printing is floating point).
* `fetch` is a field of `World`: an oracle from the outbound call to either a
  rejection carrying the error message or a response object.
* `response.text()` and `response.json()` are fields of the response object,
  each either rejecting with a message or resolving with a value.
* `new Date().toISOString()` is `toISOString` applied to the clock reading in
  milliseconds since the epoch.
* `res` starts with status code 200, which `res.status` overwrites and
  `res.json` leaves alone.
-/

namespace MtgClaudeProxy

/-! ## JavaScript values -/

/-- JSON values as produced by `express.json()` and `response.json()`.  A
number is carried as a decimal `mantissa * 10 ^ exponent`; the handlers never
look inside a value. -/
inductive Json where
  | null : Json
  | bool (b : Bool) : Json
  | num (mantissa : Int) (exponent : Int) : Json
  | str (s : String) : Json
  | arr (items : List Json) : Json
  | obj (fields : List (String × Json)) : Json

/-- A value that is either `undefined` (`none`) or a string: the type of
`process.env.X` and of the `Origin` header handed to the CORS callback. -/
abbrev MaybeString := Option String

/-- JavaScript `ToBoolean` on `undefined | string`: `undefined` and `''` are
falsy, every other string is truthy. -/
def truthy : MaybeString → Bool
  | none => false
  | some s => s != ""

/-- JavaScript `a || b` on `undefined | string`: `a` when `a` is truthy,
otherwise `b`. -/
def jsOr (a b : MaybeString) : MaybeString :=
  if truthy a then a else b

/-- `Array.prototype.indexOf` on an array of strings: the first index whose
element is strictly equal to `x`, or `-1`.  No string is strictly equal to
`undefined`. -/
def indexOf : List String → MaybeString → Int
  | [], _ => -1
  | y :: ys, x =>
    if some y = x then 0
    else
      let i := indexOf ys x
      if i = -1 then -1 else i + 1

/-- A template-literal substitution of an `undefined | string` value. -/
def interpolate : MaybeString → String
  | none => "undefined"
  | some s => s

/-- `Array.prototype.join` on an array of strings. -/
def join : List String → String → String
  | [], _ => ""
  | [x], _ => x
  | x :: y :: ys, sep => x ++ sep ++ join (y :: ys) sep

/-! ## Console -/

/-- The console method used for a line. -/
inductive Level where
  | log
  | warn
  | error
  deriving DecidableEq, Repr

/-- One console call: the method and its arguments. -/
structure LogEntry where
  level : Level
  args : List String
  deriving DecidableEq, Repr

/-! ## Origin gate (`server.js` lines 14-35) -/

/-- The `allowedOrigins` constant. -/
def allowedOrigins : List String :=
  ["https://mtgscanner.com"]

/-- What the origin function does: the two arguments it passes to `callback`
(`null` or `new Error(message)`, and the boolean) and the console lines. -/
structure GateResult where
  error : Option String
  allow : Bool
  logs : List LogEntry
  deriving DecidableEq, Repr

/-- The `origin` function given to `cors`, with the allow-list it closes over
as a parameter. -/
def originCallback (allowed : List String) (origin : MaybeString) : GateResult :=
  if !truthy origin || indexOf allowed origin != -1 then
    { error := none, allow := true, logs := [] }
  else
    { error := some "Not allowed by CORS"
      allow := false
      logs := [⟨.warn, ["CORS: Blocking request from unauthorized origin: "
                ++ interpolate origin ++ ". Allowed origins: " ++ join allowed ", "]⟩] }

/-- The origin function as installed by `server.js`. -/
def corsOrigin (origin : MaybeString) : GateResult :=
  originCallback allowedOrigins origin

/-! ## Environment and credential (`server.js` line 60) -/

/-- The two variables of `process.env` the forwarding route reads. -/
structure Env where
  CLAUDE_API_KEY : MaybeString
  ANTHROPIC_API_KEY : MaybeString
  deriving DecidableEq, Repr

/-- `process.env.CLAUDE_API_KEY || process.env.ANTHROPIC_API_KEY`. -/
def claudeApiKey (env : Env) : MaybeString :=
  jsOr env.CLAUDE_API_KEY env.ANTHROPIC_API_KEY

/-! ## Clock (`new Date().toISOString()`) -/

/-- Decimal digits of `n`, left-padded with `0` to at least `width`. -/
def padStart (width n : Nat) : String :=
  let s := toString n
  String.mk (List.replicate (width - s.length) '0') ++ s

/-- Year, month and day of month of the day `days` after 1970-01-01 in the
proleptic Gregorian calendar. -/
def civilFromDays (days : Nat) : Nat × Nat × Nat :=
  let z := days + 719468
  let era := z / 146097
  let doe := z % 146097
  let yoe := (doe - doe / 1460 + doe / 36524 - doe / 146096) / 365
  let doy := doe - (365 * yoe + yoe / 4 - yoe / 100)
  let mp := (5 * doy + 2) / 153
  let d := doy - (153 * mp + 2) / 5 + 1
  let m := if mp < 10 then mp + 3 else mp - 9
  let y := yoe + era * 400 + (if m ≤ 2 then 1 else 0)
  (y, m, d)

/-- `Date.prototype.toISOString` for a time value `t` in milliseconds since
the epoch, `YYYY-MM-DDTHH:mm:ss.sssZ`, with the expanded year `+YYYYYY` past
the year 9999. -/
def toISOString (t : Nat) : String :=
  let ymd := civilFromDays (t / 86400000)
  let year := if ymd.1 ≤ 9999 then padStart 4 ymd.1 else "+" ++ padStart 6 ymd.1
  year ++ "-" ++ padStart 2 ymd.2.1 ++ "-" ++ padStart 2 ymd.2.2
    ++ "T" ++ padStart 2 (t / 3600000 % 24) ++ ":" ++ padStart 2 (t / 60000 % 60)
    ++ ":" ++ padStart 2 (t / 1000 % 60) ++ "." ++ padStart 3 (t % 1000) ++ "Z"

/-! ## Outbound call and upstream response -/

/-- The arguments of one `fetch(url, init)` call. -/
structure OutboundCall where
  url : String
  method : String
  headers : List (String × String)
  body : String
  deriving DecidableEq, Repr

/-- The response object `fetch` resolves with, as far as the handler uses it:
`status` (the code of the upstream status line), `statusText`, and the outcome
of `text()` and of `json()`, each either a rejection with the error message or
the value read. -/
structure Response where
  status : Nat
  statusText : String
  text : Except String String
  json : Except String Json

/-- The `ok` getter of a fetch response: the status is in the range 200-299. -/
def Response.ok (r : Response) : Bool :=
  decide (200 ≤ r.status ∧ r.status ≤ 299)

/-- Outcome of awaiting `fetch`: it rejects with an error carrying `message`,
or resolves with a response. -/
inductive FetchResult where
  | rejects (message : String) : FetchResult
  | resolves (response : Response) : FetchResult

/-- Everything a handler reads besides the request. -/
structure World where
  env : Env
  stringify : Json → String
  fetch : OutboundCall → FetchResult
  clock : Nat

/-! ## The Express response and the effects of a handler -/

/-- The Express `res` object: the status code and the value handed to
`res.json`, if any.  How Express writes that value on the wire is outside the
embedding. -/
structure Res where
  statusCode : Nat
  sent : Option Json

/-- A fresh `res`: status code 200, nothing sent. -/
def Res.fresh : Res :=
  { statusCode := 200, sent := none }

/-- The Express call `res.status(code)`. -/
def Res.status (res : Res) (code : Nat) : Res :=
  { res with statusCode := code }

/-- The Express call `res.json(value)`; the status code is left as it is. -/
def Res.json (res : Res) (value : Json) : Res :=
  { res with sent := some value }

/-- What running a handler did: the final `res`, the `fetch` calls in order,
the console lines in order. -/
structure Effects where
  res : Res
  calls : List OutboundCall
  logs : List LogEntry

/-! ## `GET /` (`server.js` lines 45-52) -/

/-- The status route.  It reads the clock only. -/
def getRoot (w : World) : Effects :=
  { res := Res.fresh.json (.obj
      [ ("status", .str "MTG Claude Proxy is running")
      , ("version", .str "1.0.2")
      , ("timestamp", .str (toISOString w.clock)) ])
    calls := []
    logs := [] }

/-! ## `POST /api/claude` (`server.js` lines 54-102) -/

/-- The `anthropicApiUrl` constant. -/
def anthropicApiUrl : String :=
  "https://api.anthropic.com/v1/messages"

/-- The `fetch` call of the forwarding route for the credential `key` and the
request body `reqBody`. -/
def outboundCall (w : World) (key : String) (reqBody : Json) : OutboundCall :=
  { url := anthropicApiUrl
    method := "POST"
    headers :=
      [ ("Content-Type", "application/json")
      , ("x-api-key", key)
      , ("anthropic-version", "2023-06-01") ]
    body := w.stringify reqBody }

/-- The `catch (err)` block, entered with `err.message = message` after the
calls and console lines made so far. -/
def catchBlock (w : World) (calls : List OutboundCall) (logs : List LogEntry)
    (message : String) : Effects :=
  { res := (Res.fresh.status 500).json (.obj
      [ ("error", .str "Internal server error from Claude proxy")
      , ("message", .str message)
      , ("timestamp", .str (toISOString w.clock)) ])
    calls := calls
    logs := logs ++ [⟨.error, ["❌ Claude proxy error caught:", message]⟩] }

/-- The forwarding route, for the parsed request body `reqBody`. -/
def postApiClaude (w : World) (reqBody : Json) : Effects :=
  let logs₀ : List LogEntry := [⟨.log, ["🧠 Received Claude API request on proxy"]⟩]
  match claudeApiKey w.env, truthy (claudeApiKey w.env) with
  | some key, true =>
    let call := outboundCall w key reqBody
    match w.fetch call with
    | .rejects message => catchBlock w [call] logs₀ message
    | .resolves response =>
      if !response.ok then
        match response.text with
        | .error message => catchBlock w [call] logs₀ message
        | .ok errorBody =>
          { res := (Res.fresh.status response.status).json (.obj
              [ ("error", .str ("Claude API responded with error: " ++ response.statusText))
              , ("details", .str errorBody) ])
            calls := [call]
            logs := logs₀ ++ [⟨.error, ["❌ Claude API error (" ++ toString response.status
              ++ " " ++ response.statusText ++ "): " ++ errorBody]⟩] }
      else
        match response.json with
        | .error message => catchBlock w [call] logs₀ message
        | .ok data =>
          { res := Res.fresh.json data
            calls := [call]
            logs := logs₀ ++ [⟨.log, ["✅ Claude API response successfully forwarded."]⟩] }
  | _, _ =>
    { res := (Res.fresh.status 500).json (.obj
        [("error", .str "Server configuration error: Claude API key missing.")])
      calls := []
      logs := logs₀ ++ [⟨.error, ["❌ Claude API key not configured in environment variables."]⟩] }

/-! ## Concrete instances -/

/-- A serializer used to instantiate `World.stringify` in concrete instances:
compact JSON text, integers printed in decimal, strings quoted with `"` and
`\\` escaped. -/
def sampleStringify : Json → String
  | .null => "null"
  | .bool b => if b then "true" else "false"
  | .num m e => if e = 0 then toString m else toString m ++ "e" ++ toString e
  | .str s => "\"" ++ String.mk (s.data.flatMap fun c =>
      if c = '"' ∨ c = '\\' then ['\\', c] else [c]) ++ "\""
  | .arr items => "[" ++ go items ++ "]"
  | .obj fields => "\x7b" ++ goFields fields ++ "\x7d"
where
  go : List Json → String
    | [] => ""
    | [x] => sampleStringify x
    | x :: xs => sampleStringify x ++ "," ++ go xs
  goFields : List (String × Json) → String
    | [] => ""
    | [(k, v)] => "\"" ++ k ++ "\":" ++ sampleStringify v
    | (k, v) :: kvs => "\"" ++ k ++ "\":" ++ sampleStringify v ++ "," ++ goFields kvs

/-- A request body: `{"model":"claude-3","max_tokens":1024}`. -/
def sampleBody : Json :=
  .obj [("model", .str "claude-3"), ("max_tokens", .num 1024 0)]

/-- A world with `CLAUDE_API_KEY` set whose upstream answers every call with
`respond`. -/
def sampleWorld (respond : FetchResult) : World :=
  { env := { CLAUDE_API_KEY := some "sk-ant-test", ANTHROPIC_API_KEY := none }
    stringify := sampleStringify
    fetch := fun _ => respond
    clock := 1762387200123 }

/-- An upstream `201 Created` with the JSON body `{"id":"msg_1"}`. -/
def upstream201 : Response :=
  { status := 201
    statusText := "Created"
    text := .ok "\x7b\"id\":\"msg_1\"\x7d"
    json := .ok (.obj [("id", .str "msg_1")]) }

/-- An upstream `200 OK` with the JSON body `{"id":"msg_1"}`. -/
def upstream200 : Response :=
  { status := 200
    statusText := "OK"
    text := .ok "\x7b\"id\":\"msg_1\"\x7d"
    json := .ok (.obj [("id", .str "msg_1")]) }

/-- An upstream `429 Too Many Requests` with the text body `rate limited`,
which is not JSON. -/
def upstream429 : Response :=
  { status := 429
    statusText := "Too Many Requests"
    text := .ok "rate limited"
    json := .error "Unexpected token r in JSON at position 0" }

/-- The call `c` with the value of every header named `name` blanked out. -/
def OutboundCall.redact (name : String) (c : OutboundCall) : OutboundCall :=
  { c with headers := c.headers.map fun h => if h.1 = name then (h.1, "") else h }

/-! ## Lemmas -/

theorem truthy_some_iff (s : String) : truthy (some s) = true ↔ s ≠ "" := by
  simp [truthy]

theorem truthy_eq_false_iff (v : MaybeString) :
    truthy v = false ↔ v = none ∨ v = some "" := by
  cases v <;> simp [truthy]

theorem indexOf_eq_neg_one_iff (xs : List String) (o : String) :
    indexOf xs (some o) = -1 ↔ o ∉ xs := by
  induction xs with
  | nil => simp [indexOf]
  | cons y ys ih =>
    have hnn : ∀ zs : List String, -1 ≤ indexOf zs (some o) := by
      intro zs
      induction zs with
      | nil => simp [indexOf]
      | cons z zs ihz =>
        simp only [indexOf]
        split_ifs <;> omega
    by_cases hy : y = o
    · simp [indexOf, hy]
    · have hy2 : ¬ o = y := fun h => hy h.symm
      have := hnn ys
      simp only [indexOf, Option.some.injEq, hy, if_false, List.mem_cons, hy2, false_or]
      rw [← ih]
      split_ifs with h
      · simp [h]
      · constructor
        · intro h2; omega
        · intro h2; exact absurd h2 h

/-- With a truthy credential `key` the handler reduces to the branch after the
credential check. -/
theorem postApiClaude_of_key (w : World) (reqBody : Json) (key : String)
    (hkey : claudeApiKey w.env = some key) (hne : key ≠ "") :
    postApiClaude w reqBody =
      match w.fetch (outboundCall w key reqBody) with
      | .rejects message =>
        catchBlock w [outboundCall w key reqBody]
          [⟨.log, ["🧠 Received Claude API request on proxy"]⟩] message
      | .resolves response =>
        if !response.ok then
          match response.text with
          | .error message =>
            catchBlock w [outboundCall w key reqBody]
              [⟨.log, ["🧠 Received Claude API request on proxy"]⟩] message
          | .ok errorBody =>
            { res := (Res.fresh.status response.status).json (.obj
                [ ("error", .str ("Claude API responded with error: " ++ response.statusText))
                , ("details", .str errorBody) ])
              calls := [outboundCall w key reqBody]
              logs := [⟨.log, ["🧠 Received Claude API request on proxy"]⟩]
                ++ [⟨.error, ["❌ Claude API error (" ++ toString response.status
                  ++ " " ++ response.statusText ++ "): " ++ errorBody]⟩] }
        else
          match response.json with
          | .error message =>
            catchBlock w [outboundCall w key reqBody]
              [⟨.log, ["🧠 Received Claude API request on proxy"]⟩] message
          | .ok data =>
            { res := Res.fresh.json data
              calls := [outboundCall w key reqBody]
              logs := [⟨.log, ["🧠 Received Claude API request on proxy"]⟩]
                ++ [⟨.log, ["✅ Claude API response successfully forwarded."]⟩] } := by
  have ht : truthy (some key) = true := (truthy_some_iff key).2 hne
  simp only [postApiClaude, hkey, ht]

/-- Every path after the credential check makes exactly the one call. -/
theorem postApiClaude_calls_of_key (w : World) (reqBody : Json) (key : String)
    (hkey : claudeApiKey w.env = some key) (hne : key ≠ "") :
    (postApiClaude w reqBody).calls = [outboundCall w key reqBody] := by
  rw [postApiClaude_of_key w reqBody key hkey hne]
  cases w.fetch (outboundCall w key reqBody) with
  | rejects m => rfl
  | resolves r =>
    by_cases hok : r.ok = true
    · cases hj : r.json <;> simp [hok, hj, catchBlock]
    · cases ht : r.text <;> simp [hok, ht, catchBlock]

/-- Whatever the world and the request body, the handler sends a response. -/
theorem postApiClaude_always_responds (w : World) (reqBody : Json) :
    (postApiClaude w reqBody).res.sent.isSome = true := by
  cases hk : claudeApiKey w.env with
  | none => simp [postApiClaude, hk, Res.json]
  | some key =>
    by_cases hne : key = ""
    · simp [postApiClaude, hk, hne, truthy, Res.json]
    · rw [postApiClaude_of_key w reqBody key hk hne]
      cases w.fetch (outboundCall w key reqBody) with
      | rejects m => rfl
      | resolves r =>
        by_cases hok : r.ok = true
        · cases hj : r.json <;> simp [hok, hj, catchBlock, Res.json]
        · cases ht : r.text <;> simp [hok, ht, catchBlock, Res.json]

/-! ## The forwarding route -/

/-- C1: whenever the credential is configured (the value `key` of
`CLAUDE_API_KEY || ANTHROPIC_API_KEY` is a non-empty string), for every
request body the handler issues exactly one outbound call: a POST to
`https://api.anthropic.com/v1/messages` whose body is `JSON.stringify` of the
inbound body and whose headers are `Content-Type: application/json`,
`x-api-key: key` and `anthropic-version: 2023-06-01`. -/
theorem postApiClaude_issues_exactly_one_call (w : World) (reqBody : Json) (key : String)
    (hkey : claudeApiKey w.env = some key) (hne : key ≠ "") :
    (postApiClaude w reqBody).calls =
      [{ url := "https://api.anthropic.com/v1/messages"
         method := "POST"
         headers :=
           [ ("Content-Type", "application/json")
           , ("x-api-key", key)
           , ("anthropic-version", "2023-06-01") ]
         body := w.stringify reqBody }] :=
  postApiClaude_calls_of_key w reqBody key hkey hne

/-- C1 at a concrete world: the key `sk-ant-test` and the body
`{"model":"claude-3","max_tokens":1024}`. -/
theorem postApiClaude_issues_exactly_one_call_witness :
    (postApiClaude (sampleWorld (.resolves upstream200)) sampleBody).calls =
      [{ url := "https://api.anthropic.com/v1/messages"
         method := "POST"
         headers :=
           [ ("Content-Type", "application/json")
           , ("x-api-key", "sk-ant-test")
           , ("anthropic-version", "2023-06-01") ]
         body := "\x7b\"model\":\"claude-3\",\"max_tokens\":1024\x7d" }] :=
  postApiClaude_issues_exactly_one_call (sampleWorld (.resolves upstream200)) sampleBody
    "sk-ant-test" (by decide) (by decide)

/-- C2: if neither `CLAUDE_API_KEY` nor `ANTHROPIC_API_KEY` is set to a
non-empty string (each is unset or the empty string), then for every request
body the handler answers 500 with the JSON body
`{error: 'Server configuration error: Claude API key missing.'}` and makes no
outbound call. -/
theorem postApiClaude_without_credential (w : World) (reqBody : Json)
    (hc : w.env.CLAUDE_API_KEY = none ∨ w.env.CLAUDE_API_KEY = some "")
    (ha : w.env.ANTHROPIC_API_KEY = none ∨ w.env.ANTHROPIC_API_KEY = some "") :
    (postApiClaude w reqBody).res =
        { statusCode := 500
          sent := some (.obj
            [("error", .str "Server configuration error: Claude API key missing.")]) }
      ∧ (postApiClaude w reqBody).calls = [] := by
  have hf : truthy (claudeApiKey w.env) = false := by
    rcases hc with hc | hc <;> rcases ha with ha | ha <;>
      simp [claudeApiKey, jsOr, truthy, hc, ha]
  unfold postApiClaude
  split
  · rename_i h1 h2
    rw [hf] at h2
    exact absurd h2 (by decide)
  · exact ⟨rfl, rfl⟩

/-- C2 at a concrete world: `CLAUDE_API_KEY` empty, `ANTHROPIC_API_KEY`
unset. -/
theorem postApiClaude_without_credential_witness :
    (postApiClaude
        { env := { CLAUDE_API_KEY := some "", ANTHROPIC_API_KEY := none }
          stringify := sampleStringify
          fetch := fun _ => .resolves upstream200
          clock := 1762387200123 } sampleBody).res =
        { statusCode := 500
          sent := some (.obj
            [("error", .str "Server configuration error: Claude API key missing.")]) }
      ∧ (postApiClaude
        { env := { CLAUDE_API_KEY := some "", ANTHROPIC_API_KEY := none }
          stringify := sampleStringify
          fetch := fun _ => .resolves upstream200
          clock := 1762387200123 } sampleBody).calls = [] :=
  postApiClaude_without_credential _ sampleBody (Or.inr rfl) (Or.inl rfl)

/-- C3, as the claim states it, fails: with the credential configured and an
upstream answering `201 Created` with the JSON body `{"id":"msg_1"}`, the
caller receives that body with status 200, not the upstream status 201. -/
theorem postApiClaude_success_status_counterexample :
    claudeApiKey (sampleWorld (.resolves upstream201)).env = some "sk-ant-test"
      ∧ (sampleWorld (.resolves upstream201)).fetch
        (outboundCall (sampleWorld (.resolves upstream201)) "sk-ant-test" sampleBody)
        = .resolves upstream201
      ∧ upstream201.status = 201
      ∧ upstream201.json = .ok (.obj [("id", .str "msg_1")])
      ∧ (postApiClaude (sampleWorld (.resolves upstream201)) sampleBody).res.statusCode = 200
      ∧ (postApiClaude (sampleWorld (.resolves upstream201)) sampleBody).res.statusCode
          ≠ upstream201.status := by
  refine ⟨by decide, rfl, rfl, rfl, rfl, ?_⟩
  decide

/-- C3, amended: for every upstream response whose status is in 200..299 and
whose `json()` resolves with `data`, the handler answers with status 200 (it
does not set a status on this path) and with the body `data`; so the status
equals the upstream status exactly when the upstream status is 200. -/
theorem postApiClaude_success (w : World) (reqBody : Json) (key : String)
    (response : Response) (data : Json)
    (hkey : claudeApiKey w.env = some key) (hne : key ≠ "")
    (hfetch : w.fetch (outboundCall w key reqBody) = .resolves response)
    (h2xx : 200 ≤ response.status ∧ response.status ≤ 299)
    (hjson : response.json = .ok data) :
    (postApiClaude w reqBody).res = { statusCode := 200, sent := some data }
      ∧ ((postApiClaude w reqBody).res.statusCode = response.status
          ↔ response.status = 200) := by
  have hok : response.ok = true := by simp [Response.ok, h2xx]
  rw [postApiClaude_of_key w reqBody key hkey hne, hfetch]
  simp only [hok, hjson, Bool.not_true, Bool.false_eq_true, if_false]
  refine ⟨rfl, ?_⟩
  simp only [Res.json, Res.fresh]
  exact eq_comm

/-- C3, amended, at a concrete world: the upstream answers `200 OK`. -/
theorem postApiClaude_success_witness :
    (postApiClaude (sampleWorld (.resolves upstream200)) sampleBody).res =
        { statusCode := 200, sent := some (.obj [("id", .str "msg_1")]) }
      ∧ ((postApiClaude (sampleWorld (.resolves upstream200)) sampleBody).res.statusCode
            = upstream200.status
          ↔ upstream200.status = 200) :=
  postApiClaude_success (sampleWorld (.resolves upstream200)) sampleBody "sk-ant-test"
    upstream200 (.obj [("id", .str "msg_1")]) (by decide) (by decide) rfl (by decide) rfl

/-- C4: for every upstream response whose status `s` is outside 200..299, with
status text `t` and body text `b` (read with `text()`, so `b` need not be
JSON), the handler answers with status `s` and the JSON envelope
`{error: 'Claude API responded with error: ' ++ t, details: b}`. -/
theorem postApiClaude_upstream_error (w : World) (reqBody : Json) (key : String)
    (response : Response) (b : String)
    (hkey : claudeApiKey w.env = some key) (hne : key ≠ "")
    (hfetch : w.fetch (outboundCall w key reqBody) = .resolves response)
    (hnot2xx : ¬ (200 ≤ response.status ∧ response.status ≤ 299))
    (htext : response.text = .ok b) :
    (postApiClaude w reqBody).res =
      { statusCode := response.status
        sent := some (.obj
          [ ("error", .str ("Claude API responded with error: " ++ response.statusText))
          , ("details", .str b) ]) } := by
  have hok : response.ok = false := by simp only [Response.ok, hnot2xx, decide_False]
  rw [postApiClaude_of_key w reqBody key hkey hne, hfetch]
  simp only [hok, htext, Bool.not_false, if_true]
  rfl

/-- C4 at a concrete world: an upstream 429 with body `rate limited` yields
status 429 and details `rate limited`. -/
theorem postApiClaude_upstream_error_witness :
    (postApiClaude (sampleWorld (.resolves upstream429)) sampleBody).res =
      { statusCode := 429
        sent := some (.obj
          [ ("error", .str "Claude API responded with error: Too Many Requests")
          , ("details", .str "rate limited") ]) } :=
  postApiClaude_upstream_error (sampleWorld (.resolves upstream429)) sampleBody "sk-ant-test"
    upstream429 "rate limited" (by decide) (by decide) rfl (by decide) rfl

/-- C5: with a configured credential, whenever forwarding raises an exception
with message `m` (`fetch` rejects, `text()` rejects on a non-2xx response, or
`json()` rejects on a 2xx response), the handler answers 500 with the JSON
body having exactly the fields `error = 'Internal server error from Claude
proxy'`, `message = m` and `timestamp` = the clock reading as an ISO 8601
string.  The handler is a total function, so a response is always produced. -/
theorem postApiClaude_exception (w : World) (reqBody : Json) (key m : String)
    (hkey : claudeApiKey w.env = some key) (hne : key ≠ "")
    (hraise :
      w.fetch (outboundCall w key reqBody) = .rejects m
      ∨ (∃ response, w.fetch (outboundCall w key reqBody) = .resolves response
          ∧ ¬ (200 ≤ response.status ∧ response.status ≤ 299)
          ∧ response.text = .error m)
      ∨ (∃ response, w.fetch (outboundCall w key reqBody) = .resolves response
          ∧ (200 ≤ response.status ∧ response.status ≤ 299)
          ∧ response.json = .error m)) :
    (postApiClaude w reqBody).res =
      { statusCode := 500
        sent := some (.obj
          [ ("error", .str "Internal server error from Claude proxy")
          , ("message", .str m)
          , ("timestamp", .str (toISOString w.clock)) ]) } := by
  rw [postApiClaude_of_key w reqBody key hkey hne]
  rcases hraise with h | ⟨r, h, hs, ht⟩ | ⟨r, h, hs, hj⟩
  · rw [h]; rfl
  · have hok : r.ok = false := by simp only [Response.ok, hs, decide_False]
    rw [h]
    simp only [hok, ht, Bool.not_false, if_true]
    rfl
  · have hok : r.ok = true := by simp only [Response.ok, hs, and_self, decide_True]
    rw [h]
    simp only [hok, hj, Bool.not_true, Bool.false_eq_true, if_false]
    rfl

/-- C5 at a concrete world: `fetch` rejects. -/
theorem postApiClaude_exception_witness :
    (postApiClaude
        (sampleWorld (.rejects "request to https://api.anthropic.com/v1/messages failed"))
        sampleBody).res =
      { statusCode := 500
        sent := some (.obj
          [ ("error", .str "Internal server error from Claude proxy")
          , ("message", .str "request to https://api.anthropic.com/v1/messages failed")
          , ("timestamp", .str "2025-11-06T00:00:00.123Z") ]) } :=
  postApiClaude_exception
    (sampleWorld (.rejects "request to https://api.anthropic.com/v1/messages failed"))
    sampleBody "sk-ant-test" "request to https://api.anthropic.com/v1/messages failed"
    (by decide) (by decide) (Or.inl rfl)

/-! ## The origin gate -/

/-- C6: the allow-list is `['https://mtgscanner.com']`; for every non-empty
origin `o` the gate admits `o` (calls back with no error and `true`) if and
only if `o` is an entry of the allow-list, and every non-empty `o` that is not
an entry is rejected with the error `Not allowed by CORS` and one warning
naming `o` and the allow-list. -/
theorem corsOrigin_admits_iff_listed (o : String) (ho : o ≠ "") :
    allowedOrigins = ["https://mtgscanner.com"]
      ∧ (((corsOrigin (some o)).error = none ∧ (corsOrigin (some o)).allow = true)
          ↔ o ∈ allowedOrigins)
      ∧ (o ∈ allowedOrigins → corsOrigin (some o) = { error := none, allow := true, logs := [] })
      ∧ (o ∉ allowedOrigins →
          corsOrigin (some o) =
            { error := some "Not allowed by CORS"
              allow := false
              logs := [⟨.warn, ["CORS: Blocking request from unauthorized origin: " ++ o
                ++ ". Allowed origins: https://mtgscanner.com"]⟩] }) := by
  have ht : truthy (some o) = true := (truthy_some_iff o).2 ho
  have hidx := indexOf_eq_neg_one_iff allowedOrigins o
  have hjoin : join allowedOrigins ", " = "https://mtgscanner.com" := by decide
  by_cases hmem : o ∈ allowedOrigins
  · have hi : indexOf allowedOrigins (some o) ≠ -1 := fun h => (hidx.1 h) hmem
    have hval : corsOrigin (some o) = { error := none, allow := true, logs := [] } := by
      simp [corsOrigin, originCallback, ht, hi]
    refine ⟨rfl, ?_, fun _ => hval, fun h => absurd hmem h⟩
    rw [hval]
    simp [hmem]
  · have hi : indexOf allowedOrigins (some o) = -1 := hidx.2 hmem
    have hval : corsOrigin (some o) =
        { error := some "Not allowed by CORS"
          allow := false
          logs := [⟨.warn, ["CORS: Blocking request from unauthorized origin: " ++ o
            ++ ". Allowed origins: https://mtgscanner.com"]⟩] } := by
      have htail : ". Allowed origins: " ++ "https://mtgscanner.com"
          = ". Allowed origins: https://mtgscanner.com" := by decide
      simp only [corsOrigin, originCallback, ht, hi, interpolate, hjoin, String.append_assoc,
        htail]
      rfl
    refine ⟨rfl, ?_, fun h => absurd h hmem, fun _ => hval⟩
    rw [hval]
    simp [hmem]

/-- C6 at concrete origins: the listed origin is admitted; a different scheme,
a trailing slash and a different letter case are rejected. -/
theorem corsOrigin_admits_iff_listed_witness :
    corsOrigin (some "https://mtgscanner.com") = { error := none, allow := true, logs := [] }
      ∧ corsOrigin (some "http://mtgscanner.com") =
          { error := some "Not allowed by CORS"
            allow := false
            logs := [⟨.warn, ["CORS: Blocking request from unauthorized origin: "
              ++ "http://mtgscanner.com" ++ ". Allowed origins: https://mtgscanner.com"]⟩] }
      ∧ corsOrigin (some "https://mtgscanner.com/") =
          { error := some "Not allowed by CORS"
            allow := false
            logs := [⟨.warn, ["CORS: Blocking request from unauthorized origin: "
              ++ "https://mtgscanner.com/" ++ ". Allowed origins: https://mtgscanner.com"]⟩] }
      ∧ corsOrigin (some "https://MTGSCANNER.com") =
          { error := some "Not allowed by CORS"
            allow := false
            logs := [⟨.warn, ["CORS: Blocking request from unauthorized origin: "
              ++ "https://MTGSCANNER.com" ++ ". Allowed origins: https://mtgscanner.com"]⟩] } :=
  ⟨(corsOrigin_admits_iff_listed "https://mtgscanner.com" (by decide)).2.2.1 (by decide),
   (corsOrigin_admits_iff_listed "http://mtgscanner.com" (by decide)).2.2.2 (by decide),
   (corsOrigin_admits_iff_listed "https://mtgscanner.com/" (by decide)).2.2.2 (by decide),
   (corsOrigin_admits_iff_listed "https://MTGSCANNER.com" (by decide)).2.2.2 (by decide)⟩

/-- C7: a request with no `Origin` header (origin `undefined`) is admitted by
the origin gate for every allow-list, the empty one included, and nothing is
logged. -/
theorem originCallback_admits_absent_origin (allowed : List String) :
    originCallback allowed none = { error := none, allow := true, logs := [] }
      ∧ originCallback [] none = { error := none, allow := true, logs := [] } :=
  ⟨rfl, rfl⟩

/-! ## The credential -/

/-- C8, as the claim states it, fails: in the environment where
`CLAUDE_API_KEY` is present as the empty string and `ANTHROPIC_API_KEY` is
`sk-ant-fallback`, the credential is `sk-ant-fallback`, not the value of
`CLAUDE_API_KEY`, and it is what the outbound call carries. -/
theorem claudeApiKey_present_counterexample :
    ({ CLAUDE_API_KEY := some "", ANTHROPIC_API_KEY := some "sk-ant-fallback" } : Env).CLAUDE_API_KEY
        = some ""
      ∧ claudeApiKey { CLAUDE_API_KEY := some "", ANTHROPIC_API_KEY := some "sk-ant-fallback" }
        = some "sk-ant-fallback"
      ∧ claudeApiKey { CLAUDE_API_KEY := some "", ANTHROPIC_API_KEY := some "sk-ant-fallback" }
        ≠ ({ CLAUDE_API_KEY := some "", ANTHROPIC_API_KEY := some "sk-ant-fallback" } : Env).CLAUDE_API_KEY
      ∧ (postApiClaude
          { env := { CLAUDE_API_KEY := some "", ANTHROPIC_API_KEY := some "sk-ant-fallback" }
            stringify := sampleStringify
            fetch := fun _ => .resolves upstream200
            clock := 1762387200123 } sampleBody).calls.map (fun c => c.headers)
        = [[ ("Content-Type", "application/json")
           , ("x-api-key", "sk-ant-fallback")
           , ("anthropic-version", "2023-06-01") ]] := by
  decide

/-- C8, amended: the first of `CLAUDE_API_KEY` and `ANTHROPIC_API_KEY` that
is set to a non-empty string wins.  Whenever `CLAUDE_API_KEY` is a non-empty
string the credential is that value whatever `ANTHROPIC_API_KEY` holds;
otherwise (`CLAUDE_API_KEY` unset or empty) the credential is the value of
`ANTHROPIC_API_KEY`. -/
theorem claudeApiKey_first_nonempty (env : Env) :
    (∀ v, env.CLAUDE_API_KEY = some v → v ≠ "" → claudeApiKey env = some v)
      ∧ (env.CLAUDE_API_KEY = none ∨ env.CLAUDE_API_KEY = some "" →
          claudeApiKey env = env.ANTHROPIC_API_KEY) := by
  constructor
  · intro v hv hne
    simp [claudeApiKey, jsOr, hv, truthy, hne]
  · intro h
    rcases h with h | h <;> simp [claudeApiKey, jsOr, h, truthy]

/-- C8, amended, at concrete environments. -/
theorem claudeApiKey_first_nonempty_witness :
    claudeApiKey { CLAUDE_API_KEY := some "sk-ant-test", ANTHROPIC_API_KEY := some "sk-ant-other" }
        = some "sk-ant-test"
      ∧ claudeApiKey { CLAUDE_API_KEY := none, ANTHROPIC_API_KEY := some "sk-ant-other" }
        = some "sk-ant-other" :=
  ⟨(claudeApiKey_first_nonempty
      { CLAUDE_API_KEY := some "sk-ant-test", ANTHROPIC_API_KEY := some "sk-ant-other" }).1
      "sk-ant-test" rfl (by decide),
   (claudeApiKey_first_nonempty
      { CLAUDE_API_KEY := none, ANTHROPIC_API_KEY := some "sk-ant-other" }).2 (Or.inl rfl)⟩

/-! ## The status route -/

/-- C9: `GET /` answers 200 with a JSON body whose `status` field is the
non-empty string `MTG Claude Proxy is running` and whose `version` field is
the non-empty string `1.0.2`, in every environment: replacing the environment
(and the upstream) leaves everything the handler does unchanged, and no
outbound call is made. -/
theorem getRoot_always_ok (w : World) :
    (getRoot w).res =
        { statusCode := 200
          sent := some (.obj
            [ ("status", .str "MTG Claude Proxy is running")
            , ("version", .str "1.0.2")
            , ("timestamp", .str (toISOString w.clock)) ]) }
      ∧ "MTG Claude Proxy is running" ≠ ""
      ∧ "1.0.2" ≠ ""
      ∧ (getRoot w).calls = []
      ∧ (∀ (env : Env) (fetch : OutboundCall → FetchResult),
          getRoot { w with env := env, fetch := fetch } = getRoot w) :=
  ⟨rfl, by decide, by decide, rfl, fun _ _ => rfl⟩

/-! ## The secret and the caller -/

/-- C10: the caller-visible response of `POST /api/claude` does not depend on
the value of the secret.  For two worlds whose credentials `k₁` and `k₂` are
non-empty, with the same request body, the same clock reading and the same
upstream outcome, the handler returns the same status and body (and writes
the same console lines); each makes one outbound call, and the two calls are
equal once the value of the `x-api-key` header is blanked out, when the body
serializes the same in both. -/
theorem postApiClaude_response_independent_of_secret (w₁ w₂ : World) (reqBody : Json)
    (k₁ k₂ : String)
    (hkey₁ : claudeApiKey w₁.env = some k₁) (hne₁ : k₁ ≠ "")
    (hkey₂ : claudeApiKey w₂.env = some k₂) (hne₂ : k₂ ≠ "")
    (hclock : w₁.clock = w₂.clock)
    (hupstream : w₁.fetch (outboundCall w₁ k₁ reqBody) = w₂.fetch (outboundCall w₂ k₂ reqBody)) :
    (postApiClaude w₁ reqBody).res = (postApiClaude w₂ reqBody).res
      ∧ (postApiClaude w₁ reqBody).logs = (postApiClaude w₂ reqBody).logs
      ∧ (w₁.stringify reqBody = w₂.stringify reqBody →
          (postApiClaude w₁ reqBody).calls.map (OutboundCall.redact "x-api-key")
            = (postApiClaude w₂ reqBody).calls.map (OutboundCall.redact "x-api-key")) := by
  refine ⟨?_, ?_, ?_⟩
  · rw [postApiClaude_of_key w₁ reqBody k₁ hkey₁ hne₁,
      postApiClaude_of_key w₂ reqBody k₂ hkey₂ hne₂, hupstream]
    cases w₂.fetch (outboundCall w₂ k₂ reqBody) with
    | rejects m => simp [catchBlock, hclock]
    | resolves r =>
      by_cases hok : r.ok = true
      · cases hj : r.json <;> simp [hok, hj, catchBlock, hclock]
      · cases ht : r.text <;> simp [hok, ht, catchBlock, hclock]
  · rw [postApiClaude_of_key w₁ reqBody k₁ hkey₁ hne₁,
      postApiClaude_of_key w₂ reqBody k₂ hkey₂ hne₂, hupstream]
    cases w₂.fetch (outboundCall w₂ k₂ reqBody) with
    | rejects m => simp [catchBlock]
    | resolves r =>
      by_cases hok : r.ok = true
      · cases hj : r.json <;> simp [hok, hj, catchBlock]
      · cases ht : r.text <;> simp [hok, ht, catchBlock]
  · intro hbody
    rw [postApiClaude_calls_of_key w₁ reqBody k₁ hkey₁ hne₁,
      postApiClaude_calls_of_key w₂ reqBody k₂ hkey₂ hne₂]
    simp [OutboundCall.redact, outboundCall, hbody]

/-- C10 at two concrete worlds with the keys `sk-ant-test` and `sk-ant-other`
and an upstream answering 429 to both. -/
theorem postApiClaude_response_independent_of_secret_witness :
    (postApiClaude (sampleWorld (.resolves upstream429)) sampleBody).res
        = (postApiClaude
            { env := { CLAUDE_API_KEY := none, ANTHROPIC_API_KEY := some "sk-ant-other" }
              stringify := sampleStringify
              fetch := fun _ => .resolves upstream429
              clock := 1762387200123 } sampleBody).res
      ∧ (postApiClaude (sampleWorld (.resolves upstream429)) sampleBody).logs
        = (postApiClaude
            { env := { CLAUDE_API_KEY := none, ANTHROPIC_API_KEY := some "sk-ant-other" }
              stringify := sampleStringify
              fetch := fun _ => .resolves upstream429
              clock := 1762387200123 } sampleBody).logs
      ∧ (sampleStringify sampleBody = sampleStringify sampleBody →
          (postApiClaude (sampleWorld (.resolves upstream429)) sampleBody).calls.map
              (OutboundCall.redact "x-api-key")
            = (postApiClaude
                { env := { CLAUDE_API_KEY := none, ANTHROPIC_API_KEY := some "sk-ant-other" }
                  stringify := sampleStringify
                  fetch := fun _ => .resolves upstream429
                  clock := 1762387200123 } sampleBody).calls.map
              (OutboundCall.redact "x-api-key")) :=
  postApiClaude_response_independent_of_secret (sampleWorld (.resolves upstream429))
    { env := { CLAUDE_API_KEY := none, ANTHROPIC_API_KEY := some "sk-ant-other" }
      stringify := sampleStringify
      fetch := fun _ => .resolves upstream429
      clock := 1762387200123 } sampleBody "sk-ant-test" "sk-ant-other"
    (by decide) (by decide) (by decide) (by decide) rfl rfl

end MtgClaudeProxy
